import Mathlib

/-!
# Verification of the segmentation session core of `backend/sam3_server.py`

Shallow embedding of the segmentation server's pure logic:

* mask encoding (`encode_mask_to_base64`),
* the geometry-only fallback synthesizer (`generate_fallback_mask`),
* the score-descending sort applied to backend outputs (`np.argsort(scores)[::-1]`),
* the module-level embedding cache (`_current_image_hash`, `_current_image_state`)
  threaded through the `/set_image` and `/segment` handlers,
* the backend selector (`load_model`).

Modelling conventions:

* A base64 image payload is modelled by the outcome of decoding it
  (`Except String Img`): decoding either yields a decoded image
  (width, height, content fingerprint) or raises with a message.
* Confidence scores are modelled as rationals (`ℚ`); the server's float
  comparisons used here (`score ordering`, `mask > 0.5`) are order
  comparisons that rationals model exactly.
* Point coordinates are rationals; the fallback synthesizer truncates them
  toward zero (`int(pt[0])`), modelled by `truncInt`.
* The fallback radii `int(min(w,h)*0.15)` and `int(min(w,h)*0.1)` are
  modelled by the exact rational floors `3*min(w,h)/20` and `min(w,h)/10`:
  for every image size the double products round to within half an ulp of
  the exact value, so the truncations agree.
* `dist <= radius` on `np.sqrt` of an integer squared distance against an
  integer radius is equivalent to comparing squared distances, which is how
  `inDisk` states it.
* The backend model objects (`_model`, `_processor`) are opaque: a
  `BackendOps` record carries their fallible `embed` (feature extraction via
  `processor.set_image`) and `predict` capabilities as oracles.
* An `HTTPException(500, detail)` raised by a handler is the `.error`
  branch of the handler's `Except String` result.
-/

namespace GenGameAssets

/-- Confidence scores (server floats modelled as rationals). -/
abbrev Score := ℚ

/-- A decoded image: spatial size plus the content fingerprint that
`get_image_hash` computes (md5 of the canonical PNG bytes, modelled as an
opaque `Nat`). -/
structure Img where
  width : Nat
  height : Nat
  fingerprint : Nat
deriving DecidableEq, Repr

/-- A mask array handed to `encode_mask_to_base64`: either a boolean numpy
array or a numeric one (float/int values modelled as rationals). -/
inductive MaskArray where
  | boolArr (rows : List (List Bool))
  | numArr (rows : List (List ℚ))
deriving DecidableEq, Repr

/-- The single-channel 8-bit raster produced by `encode_mask_to_base64`
just before PNG/base64 serialization (both injective, so elided):
`bool` arrays are scaled by 255, other dtypes are thresholded at 0.5. -/
def encode_mask_to_base64 (m : MaskArray) : List (List Nat) :=
  match m with
  | .boolArr rows => rows.map (fun r => r.map (fun b => if b then 255 else 0))
  | .numArr rows => rows.map (fun r => r.map (fun v => if v > 1/2 then 255 else 0))

/-- Python `int()` on a rational: truncation toward zero. -/
def truncInt (q : ℚ) : Int := Int.tdiv q.num q.den

/-- The radius `int(min(width, height) * 0.15)` of a positive disk. -/
def rpos (w h : Nat) : Nat := 3 * min w h / 20

/-- The radius `int(min(width, height) * 0.1)` of a negative disk. -/
def rneg (w h : Nat) : Nat := min w h / 10

/-- Disk membership `dist <= radius` at pixel `(px, py)` for a disk centred at `(cx, cy)`:
squared Euclidean distance compared against the squared radius. -/
def inDisk (cx cy : Int) (r : Nat) (px py : Nat) : Bool :=
  ((px : Int) - cx) ^ 2 + ((py : Int) - cy) ^ 2 ≤ (r : Int) ^ 2

/-- Value of pixel `(x, y)` after the positive-point loop of
`generate_fallback_mask`: start from the zero raster, each positive point
sets its disk to 255. -/
def posPass (w h : Nat) (pos : List (ℚ × ℚ)) (x y : Nat) : Nat :=
  pos.foldl
    (fun v pt => if inDisk (truncInt pt.1) (truncInt pt.2) (rpos w h) x y then 255 else v) 0

/-- Value of pixel `(x, y)` after both loops of `generate_fallback_mask`:
the negative-point loop sets each negative disk to 0 on the raster left by
the positive loop. -/
def fallbackPixel (w h : Nat) (pos neg : List (ℚ × ℚ)) (x y : Nat) : Nat :=
  neg.foldl
    (fun v pt => if inDisk (truncInt pt.1) (truncInt pt.2) (rneg w h) x y then 0 else v)
    (posPass w h pos x y)

/-- The full fallback raster `np.zeros((height, width), dtype=np.uint8)`
after both loops, as the numeric mask array fed to `encode_mask_to_base64`. -/
def fallbackMaskArr (w h : Nat) (pos neg : List (ℚ × ℚ)) : MaskArray :=
  .numArr ((List.range h).map (fun y => (List.range w).map (fun x =>
    (fallbackPixel w h pos neg x y : ℚ))))

instance {ε α : Type} [DecidableEq ε] [DecidableEq α] : DecidableEq (Except ε α)
  | .error e, .error f => decidable_of_iff (e = f) (by simp)
  | .error _, .ok _ => .isFalse (by simp)
  | .ok _, .error _ => .isFalse (by simp)
  | .ok a, .ok b => decidable_of_iff (a = b) (by simp)

/-- Request model `SegmentationRequest` (pydantic): the base64 image payload is
modelled by its decode outcome. -/
structure SegmentationRequest where
  image : Except String Img
  points_positive : List (ℚ × ℚ)
  points_negative : List (ℚ × ℚ)
  multimask_output : Bool
deriving DecidableEq

/-- Response model `SegmentationResponse` (pydantic). Its fields are exactly the
source's: `success`, `masks` (encoded rasters; base64/PNG serialization
elided), `scores`, `message`. -/
structure SegmentationResponse where
  success : Bool
  masks : List (List (List Nat)) := []
  scores : List Score := []
  message : String := ""
deriving DecidableEq

/-- Request model `SetImageRequest`. -/
structure SetImageRequest where
  image : Except String Img
deriving DecidableEq

/-- Response model `SetImageResponse`. -/
structure SetImageResponse where
  success : Bool
  image_size : List Nat := []
  message : String := ""
deriving DecidableEq

/-- The function `generate_fallback_mask`: decode the image (an exception becomes a
`success=False` response carrying the message), reject an empty combined
point list, otherwise run the two disk loops and return one encoded mask
with the fixed score 0.5. -/
def generate_fallback_mask (req : SegmentationRequest) : SegmentationResponse :=
  match req.image with
  | .error e => { success := false, message := e }
  | .ok img =>
    if (req.points_positive ++ req.points_negative).length = 0 then
      { success := false, message := "No points provided" }
    else
      { success := true
        masks := [encode_mask_to_base64
          (fallbackMaskArr img.width img.height req.points_positive req.points_negative)]
        scores := [1/2]
        message := "Fallback mask generated (SAM3 not available)" }

/-!
## The score sort

`np.argsort(scores)[::-1]` followed by fancy-indexing `masks` and `scores`.
For the short score arrays at hand numpy's introsort runs its insertion
sort, which is stable, so the ascending argsort orders indices
lexicographically by (score, index); the slice then reverses that order.
-/

/-- Lookup `scores[i]` with numpy out-of-range behaviour irrelevant (indices come
from `range`). -/
def keyOf (s : List Score) (i : Nat) : Score := s.getD i 0

/-- Stable-ascending comparison on indices into `s`: by score, ties by
index. A stable ascending sort by score alone orders indices exactly this
way. -/
def lexLe (s : List Score) (i j : Nat) : Prop :=
  keyOf s i < keyOf s j ∨ (keyOf s i = keyOf s j ∧ i ≤ j)

instance (s : List Score) : DecidableRel (lexLe s) := by
  intro i j
  unfold lexLe
  infer_instance

/-- The ascending argsort `np.argsort(scores)` (stable). -/
def argsortAsc (s : List Score) : List Nat :=
  List.insertionSort (lexLe s) (List.range s.length)

/-- The reversed argsort `np.argsort(scores)[::-1]`. -/
def sortIdx (s : List Score) : List Nat := (argsortAsc s).reverse

/-- Fancy indexing `masks = masks[sorted_indices]; scores = scores[sorted_indices]`. -/
def sortByScoreDesc (masks : List MaskArray) (scores : List Score) :
    List MaskArray × List Score :=
  ((sortIdx scores).map (fun i => masks.getD i (.boolArr [])),
   (sortIdx scores).map (fun i => scores.getD i 0))

/-!
## Server state and handlers
-/

/-- The backend the selector committed to (`load_model`). -/
inductive ActiveBackend where
  | sam3
  | sam1
  | nobackend
deriving DecidableEq, Repr

/-- The module-level globals of `sam3_server.py`. `modelLoaded` is
`_model is not None and _processor is not None`; `sam3Available` is
`_sam3_available`; `imageHash`/`imageState` are the embedding cache
(`_current_image_hash`, `_current_image_state`, with the opaque backend
state object modelled as a `Nat` token). -/
structure ServerState where
  sam3Available : Bool
  modelLoaded : Bool
  backend : ActiveBackend
  imageHash : Option Nat
  imageState : Option Nat
deriving DecidableEq, Repr

/-- The fallible capabilities of the loaded model/processor pair, as
oracles: `embed` is the feature extraction performed by
`processor.set_image`, `predict` the mask prediction (it receives whatever
`_current_image_state` currently holds). -/
structure BackendOps where
  embed : Img → Except String Nat
  predict : Option Nat → List (ℚ × ℚ) → List Nat → Bool → Except String (List MaskArray × List Score)

/-- Whether `/segment` and `/set_image` take their learned path:
the source guard is `not _sam3_available or _model is None or _processor
is None`. -/
def backendInactive (st : ServerState) : Bool :=
  !st.sam3Available || !st.modelLoaded

/-- The success message `f"Generated {len(masks)} mask(s)"`. -/
def generatedMessage (n : Nat) : String := "Generated " ++ toString n ++ " mask(s)"

/-- The part of the `/segment` handler from the empty-prompt check
(lines 384-389) to the response: build the combined point and label
arrays, call `predict`, sort by descending score, encode. `n` is the
number of embedding computations already performed by the caller. -/
def segmentAfterEmbed (B : BackendOps) (st : ServerState) (req : SegmentationRequest)
    (n : Nat) : Except String SegmentationResponse × ServerState × Nat :=
  let allPoints := req.points_positive ++ req.points_negative
  if allPoints.length = 0 then
    (.ok { success := false, message := "No points provided" }, st, n)
  else
    let labels := List.replicate req.points_positive.length 1
      ++ List.replicate req.points_negative.length 0
    match B.predict st.imageState allPoints labels req.multimask_output with
    | .error e => (.error e, st, n)
    | .ok (masks, scores) =>
      let sorted := sortByScoreDesc masks scores
      (.ok { success := true
             masks := sorted.1.map encode_mask_to_base64
             scores := sorted.2
             message := generatedMessage sorted.1.length }, st, n)

/-- The `/segment` handler. Returns the HTTP outcome, the new module
state, and the number of embedding computations performed. -/
def segmentStep (B : BackendOps) (st : ServerState) (req : SegmentationRequest) :
    Except String SegmentationResponse × ServerState × Nat :=
  if backendInactive st then
    (.ok (generate_fallback_mask req), st, 0)
  else
    match req.image with
    | .error e => (.error e, st, 0)
    | .ok img =>
      -- recompute the embedding when the fingerprint changed (lines 369-381)
      if st.imageHash = some img.fingerprint then
        segmentAfterEmbed B st req 0
      else
        match B.embed img with
        | .error e => (.error e, st, 1)
        | .ok emb =>
          segmentAfterEmbed B
            { st with imageHash := some img.fingerprint, imageState := some emb } req 1

/-- The `/set_image` handler. Same result shape as `segmentStep`. -/
def setImageStep (B : BackendOps) (st : ServerState) (req : SetImageRequest) :
    Except String SetImageResponse × ServerState × Nat :=
  if backendInactive st then
    match req.image with
    | .error e => (.error e, st, 0)
    | .ok img =>
      (.ok { success := true, image_size := [img.width, img.height]
             message := "SAM3 not available, using fallback mode" }, st, 0)
  else
    match req.image with
    | .error e => (.error e, st, 0)
    | .ok img =>
      if st.imageHash = some img.fingerprint then
        (.ok { success := true, image_size := [img.width, img.height]
               message := "Image already cached" }, st, 0)
      else
        match B.embed img with
        | .error e => (.error e, st, 1)
        | .ok emb =>
          (.ok { success := true, image_size := [img.width, img.height]
                 message := "Image embeddings computed successfully" },
           { st with imageHash := some img.fingerprint, imageState := some emb }, 1)

/-!
## Backend selector (`load_model`) and the process model
-/

/-- The outcomes of the fallible initialization steps `load_model` may
attempt, fixed for the process: the whole SAM3 attempt (imports, BPE path,
model build, processor construction), the `segment_anything` import, the
checkpoint existence test, and the SAM1 build. -/
structure InitEnv where
  sam3Attempt : Except String Unit
  sam1Import : Except String Unit
  sam1CheckpointPresent : Bool
  sam1Build : Except String Unit

/-- The try/except cascade of `load_model`: SAM3 first (any failure is
caught and logged), then SAM1 (import failure caught; missing checkpoint
returns early; build failure caught); if nothing succeeded the process
runs in fallback mode. -/
def selectBackend (env : InitEnv) : ActiveBackend :=
  match env.sam3Attempt with
  | .ok _ => .sam3
  | .error _ =>
    match env.sam1Import with
    | .error _ => .nobackend
    | .ok _ =>
      if env.sam1CheckpointPresent then
        match env.sam1Build with
        | .ok _ => .sam1
        | .error _ => .nobackend
      else .nobackend

/-- The function `load_model`: the `_model is not None` guard, then the cascade.

Returns its Boolean return value, the new module state, and the number of
backend initialization attempts made (SAM3 counts as one, SAM1 as a
second). On success `_sam3_available` is set `True` whichever family
loaded; on total failure `_sam3_available = False` and `_model` stays
`None`. -/
def load_model (env : InitEnv) (st : ServerState) : Bool × ServerState × Nat :=
  if st.modelLoaded then (true, st, 0)
  else
    match selectBackend env with
    | .sam3 => (true, { st with sam3Available := true, modelLoaded := true, backend := .sam3 }, 1)
    | .sam1 => (true, { st with sam3Available := true, modelLoaded := true, backend := .sam1 }, 2)
    | .nobackend =>
      (false, { st with sam3Available := false, modelLoaded := false, backend := .nobackend }, 2)

/-- The module globals at import time: everything `None`/`False`. -/
def initialState : ServerState :=
  { sam3Available := false, modelLoaded := false, backend := .nobackend
    imageHash := none, imageState := none }

/-- The `lifespan` hook: the single `load_model()` call at process start. -/
def startServer (env : InitEnv) : ServerState := (load_model env initialState).2.1

/-- A sequence of `/segment` requests served in order; returns the final
module state and the total number of embedding computations. -/
def runSeq (B : BackendOps) (st : ServerState) : List SegmentationRequest → ServerState × Nat
  | [] => (st, 0)
  | r :: rs =>
    let out := segmentStep B st r
    let rest := runSeq B out.2.1 rs
    (rest.1, out.2.2 + rest.2)

/-- Pixel `(x, y)` lies in some positive disk: the pixels the positive loop of
`generate_fallback_mask` sets to 255. -/
def posHit (w h : Nat) (pos : List (ℚ × ℚ)) (x y : Nat) : Bool :=
  pos.any fun pt => inDisk (truncInt pt.1) (truncInt pt.2) (rpos w h) x y

/-- Pixel `(x, y)` lies in some negative disk: the pixels the negative loop of
`generate_fallback_mask` resets to 0. -/
def negHit (w h : Nat) (neg : List (ℚ × ℚ)) (x y : Nat) : Bool :=
  neg.any fun pt => inDisk (truncInt pt.1) (truncInt pt.2) (rneg w h) x y

/-- The order in which `np.argsort(scores)[::-1]` emits indices:
descending by score, ties by descending index. -/
def lexGe (s : List Score) (i j : Nat) : Prop := lexLe s j i

instance (s : List Score) : DecidableRel (lexGe s) := by
  intro i j
  unfold lexGe
  infer_instance

instance (s : List Score) : IsTotal Nat (lexLe s) := by
  constructor
  intro i j
  rcases lt_trichotomy (keyOf s i) (keyOf s j) with hlt | heq | hgt
  · exact .inl (.inl hlt)
  · rcases Nat.le_total i j with hij | hji
    · exact .inl (.inr ⟨heq, hij⟩)
    · exact .inr (.inr ⟨heq.symm, hji⟩)
  · exact .inr (.inl hgt)

instance (s : List Score) : IsTrans Nat (lexLe s) := by
  constructor
  intro i j k hij hjk
  rcases hij with hlt | ⟨heq, hle⟩
  · rcases hjk with hlt' | ⟨heq', _⟩
    · exact .inl (hlt.trans hlt')
    · exact .inl (heq' ▸ hlt)
  · rcases hjk with hlt' | ⟨heq', hle'⟩
    · exact .inl (heq ▸ hlt')
    · exact .inr ⟨heq.trans heq', hle.trans hle'⟩

/-!
## Helper lemmas
-/

theorem any_congr_of_perm {α : Type} {l₁ l₂ : List α} (h : l₁.Perm l₂) (p : α → Bool) :
    l₁.any p = l₂.any p := by
  rw [Bool.eq_iff_iff]
  simp only [List.any_eq_true]
  exact ⟨fun ⟨x, hx, hp⟩ => ⟨x, h.mem_iff.mp hx, hp⟩,
         fun ⟨x, hx, hp⟩ => ⟨x, h.mem_iff.mpr hx, hp⟩⟩

theorem except_isOk_iff {ε α : Type} (e : Except ε α) : e.isOk = true ↔ ∃ a, e = .ok a := by
  cases e with
  | error x => simp [Except.isOk, Except.toBool]
  | ok a => simp [Except.isOk, Except.toBool]

theorem foldl_ite_const {α : Type} (c : α → Bool) (k : Nat) :
    ∀ (l : List α) (a : Nat),
      l.foldl (fun v pt => if c pt then k else v) a = if l.any c then k else a
  | [], _ => by simp
  | x :: l, a => by
    simp only [List.foldl_cons, List.any_cons]
    rw [foldl_ite_const c k l]
    by_cases hx : c x <;> by_cases hl : l.any c <;> simp [hx, hl]

/-- The raster the two loops of `generate_fallback_mask` leave at a pixel:
0 on every negative disk, else 255 on every positive disk, else 0. -/
theorem fallbackPixel_eq (w h : Nat) (pos neg : List (ℚ × ℚ)) (x y : Nat) :
    fallbackPixel w h pos neg x y =
      if negHit w h neg x y then 0 else if posHit w h pos x y then 255 else 0 := by
  unfold fallbackPixel posPass negHit posHit
  rw [foldl_ite_const, foldl_ite_const]

theorem fallbackPixel_zero_or_255 (w h : Nat) (pos neg : List (ℚ × ℚ)) (x y : Nat) :
    fallbackPixel w h pos neg x y = 0 ∨ fallbackPixel w h pos neg x y = 255 := by
  rw [fallbackPixel_eq]
  by_cases hn : negHit w h neg x y <;> by_cases hp : posHit w h pos x y <;> simp [hn, hp]

theorem argsortAsc_perm (s : List Score) : (argsortAsc s).Perm (List.range s.length) :=
  List.perm_insertionSort _ _

theorem argsortAsc_sorted (s : List Score) : (argsortAsc s).Sorted (lexLe s) :=
  List.sorted_insertionSort _ _

theorem sortIdx_perm (s : List Score) : (sortIdx s).Perm (List.range s.length) :=
  (List.reverse_perm _).trans (argsortAsc_perm s)

theorem sortIdx_sorted (s : List Score) : (sortIdx s).Sorted (lexGe s) :=
  List.pairwise_reverse.mpr (argsortAsc_sorted s)

theorem map_getD_range {α : Type} (d : α) :
    ∀ (xs : List α), (List.range xs.length).map (fun i => xs.getD i d) = xs
  | [] => rfl
  | x :: xs => by
    rw [List.length_cons, List.range_succ_eq_map, List.map_cons, List.map_map]
    have hc : ((fun i => (x :: xs).getD i d) ∘ Nat.succ) = fun i => xs.getD i d := rfl
    rw [hc, map_getD_range d xs]
    rfl

theorem zip_eq_map_range {α β : Type} (d : α) (e : β) :
    ∀ (xs : List α) (ys : List β), xs.length = ys.length →
      (List.range ys.length).map (fun i => (xs.getD i d, ys.getD i e)) = xs.zip ys
  | [], [], _ => rfl
  | [], _ :: _, h => by simp at h
  | _ :: _, [], h => by simp at h
  | x :: xs, y :: ys, h => by
    rw [List.length_cons, List.range_succ_eq_map, List.map_cons, List.map_map]
    have hc : ((fun i => ((x :: xs).getD i d, (y :: ys).getD i e)) ∘ Nat.succ)
        = fun i => (xs.getD i d, ys.getD i e) := rfl
    rw [hc, zip_eq_map_range d e xs ys (by simpa using h)]
    rfl

theorem sortByScoreDesc_masks (ms : List MaskArray) (ss : List Score) :
    (sortByScoreDesc ms ss).1 = (sortIdx ss).map (fun i => ms.getD i (.boolArr [])) := rfl

theorem sortByScoreDesc_scores (ms : List MaskArray) (ss : List Score) :
    (sortByScoreDesc ms ss).2 = (sortIdx ss).map (keyOf ss) := rfl

theorem sortByScoreDesc_scores_sorted (ms : List MaskArray) (ss : List Score) :
    (sortByScoreDesc ms ss).2.Sorted (· ≥ ·) := by
  rw [sortByScoreDesc_scores]
  refine List.pairwise_map.mpr ?_
  refine (sortIdx_sorted ss).imp ?_
  intro i j hij
  rcases hij with hlt | ⟨heq, _⟩
  · exact le_of_lt hlt
  · exact le_of_eq heq

theorem sortByScoreDesc_zip_perm (ms : List MaskArray) (ss : List Score)
    (hlen : ms.length = ss.length) :
    ((sortByScoreDesc ms ss).1.zip (sortByScoreDesc ms ss).2).Perm (ms.zip ss) := by
  rw [sortByScoreDesc_masks, sortByScoreDesc_scores, List.zip_map']
  rw [← zip_eq_map_range (MaskArray.boolArr []) 0 ms ss hlen]
  exact (sortIdx_perm ss).map _

theorem generatedMessage_ne_fallback (n : Nat) :
    generatedMessage n ≠ "Fallback mask generated (SAM3 not available)" := by
  intro h
  have hd := congrArg String.data h
  unfold generatedMessage at hd
  rw [String.data_append, String.data_append] at hd
  rw [show ("Generated ").data = 'G' :: "enerated ".data from rfl] at hd
  rw [show ("Fallback mask generated (SAM3 not available)").data
      = 'F' :: "allback mask generated (SAM3 not available)".data from rfl] at hd
  simp only [List.cons_append] at hd
  injection hd with h1 _
  exact absurd h1 (by decide)

theorem segmentAfterEmbed_state (B : BackendOps) (st : ServerState)
    (req : SegmentationRequest) (n : Nat) : (segmentAfterEmbed B st req n).2 = (st, n) := by
  unfold segmentAfterEmbed
  dsimp only
  split
  · rfl
  · split <;> rfl

theorem segmentAfterEmbed_ok (B : BackendOps) (st : ServerState) (req : SegmentationRequest)
    (n : Nat) (ms : List MaskArray) (ss : List Score)
    (hpts : (req.points_positive ++ req.points_negative).length ≠ 0)
    (hpred : B.predict st.imageState (req.points_positive ++ req.points_negative)
      (List.replicate req.points_positive.length 1
        ++ List.replicate req.points_negative.length 0)
      req.multimask_output = .ok (ms, ss)) :
    (segmentAfterEmbed B st req n).1 = .ok
      { success := true
        masks := (sortByScoreDesc ms ss).1.map encode_mask_to_base64
        scores := (sortByScoreDesc ms ss).2
        message := generatedMessage (sortByScoreDesc ms ss).1.length } := by
  unfold segmentAfterEmbed
  have hne : ¬(req.points_positive = [] ∧ req.points_negative = []) := by
    rintro ⟨h1, h2⟩
    exact hpts (by simp [h1, h2])
  simp [hpred, hne]

theorem segmentStep_inactive (B : BackendOps) (st : ServerState) (req : SegmentationRequest)
    (h : backendInactive st = true) :
    segmentStep B st req = (.ok (generate_fallback_mask req), st, 0) := by
  unfold segmentStep
  simp [h]

theorem segmentStep_decode_error (B : BackendOps) (st : ServerState) (req : SegmentationRequest)
    (e : String) (hact : backendInactive st = false) (himg : req.image = .error e) :
    segmentStep B st req = (.error e, st, 0) := by
  unfold segmentStep
  simp [hact, himg]

theorem segmentStep_cached (B : BackendOps) (st : ServerState) (req : SegmentationRequest)
    (img : Img) (hact : backendInactive st = false) (himg : req.image = .ok img)
    (hc : st.imageHash = some img.fingerprint) :
    segmentStep B st req = segmentAfterEmbed B st req 0 := by
  unfold segmentStep
  simp [hact, himg, hc]

theorem segmentStep_embed_error (B : BackendOps) (st : ServerState) (req : SegmentationRequest)
    (img : Img) (e : String) (hact : backendInactive st = false) (himg : req.image = .ok img)
    (hc : ¬st.imageHash = some img.fingerprint) (hemb : B.embed img = .error e) :
    segmentStep B st req = (.error e, st, 1) := by
  unfold segmentStep
  simp [hact, himg, hc, hemb]

theorem segmentStep_embed_ok (B : BackendOps) (st : ServerState) (req : SegmentationRequest)
    (img : Img) (emb : Nat) (hact : backendInactive st = false) (himg : req.image = .ok img)
    (hc : ¬st.imageHash = some img.fingerprint) (hemb : B.embed img = .ok emb) :
    segmentStep B st req =
      segmentAfterEmbed B
        { st with imageHash := some img.fingerprint, imageState := some emb } req 1 := by
  unfold segmentStep
  simp [hact, himg, hc, hemb]

/-- Requests to `/segment` never touch the selector's state: the model flags and the
committed backend are unchanged by every request. -/
theorem segmentStep_preserves_model (B : BackendOps) (st : ServerState)
    (req : SegmentationRequest) :
    (segmentStep B st req).2.1.sam3Available = st.sam3Available ∧
    (segmentStep B st req).2.1.modelLoaded = st.modelLoaded ∧
    (segmentStep B st req).2.1.backend = st.backend := by
  by_cases h : backendInactive st = true
  · simp [segmentStep_inactive B st req h]
  · have h' : backendInactive st = false := by simpa using h
    cases himg : req.image with
    | error e => simp [segmentStep_decode_error B st req e h' himg]
    | ok img =>
      by_cases hc : st.imageHash = some img.fingerprint
      · rw [segmentStep_cached B st req img h' himg hc]
        have hst := congrArg Prod.fst (segmentAfterEmbed_state B st req 0)
        simp [hst]
      · cases hemb : B.embed img with
        | error e => simp [segmentStep_embed_error B st req img e h' himg hc hemb]
        | ok emb =>
          rw [segmentStep_embed_ok B st req img emb h' himg hc hemb]
          have hst := congrArg Prod.fst (segmentAfterEmbed_state B
            { st with imageHash := some img.fingerprint, imageState := some emb } req 1)
          simp [hst]

theorem map_getD_commute {α β : Type} (g : α → β) (l : List (List α)) (y : Nat) :
    (l.map (fun r => r.map g)).getD y [] = (l.getD y []).map g := by
  induction l generalizing y with
  | nil => simp
  | cons r l ih =>
    cases y with
    | zero => rfl
    | succ y => simpa using ih y

theorem getD_map_range {α : Type} (f : Nat → α) (w x : Nat) (d : α) (hx : x < w) :
    ((List.range w).map f).getD x d = f x := by
  have hx1 : x < ((List.range w).map f).length := by simpa using hx
  rw [List.getD_eq_getElem _ _ hx1, List.getElem_map, List.getElem_range]

/-- Pixel `(x, y)` of the encoded fallback mask equals the raster pixel the
two loops produced: the 0.5 threshold of `encode_mask_to_base64` is the
identity on the uint8 values 0 and 255. -/
theorem fallback_encoded_pixel (w h : Nat) (pos neg : List (ℚ × ℚ)) (x y : Nat)
    (hx : x < w) (hy : y < h) :
    ((encode_mask_to_base64 (fallbackMaskArr w h pos neg)).getD y []).getD x 7
      = fallbackPixel w h pos neg x y := by
  unfold fallbackMaskArr encode_mask_to_base64
  rw [map_getD_commute]
  rw [getD_map_range _ h y [] hy, List.map_map]
  have hcomp : ((fun v : ℚ => if v > 1/2 then 255 else 0) ∘
      fun x => (fallbackPixel w h pos neg x y : ℚ))
      = fun x => if (fallbackPixel w h pos neg x y : ℚ) > 1/2 then 255 else 0 := rfl
  rw [hcomp, getD_map_range _ w x 7 hx]
  rcases fallbackPixel_zero_or_255 w h pos neg x y with h0 | h255
  · rw [h0]
    norm_num
  · rw [h255]
    norm_num

theorem fallbackPixel_perm (w h : Nat) {pos pos' neg neg' : List (ℚ × ℚ)}
    (hp : pos.Perm pos') (hn : neg.Perm neg') (x y : Nat) :
    fallbackPixel w h pos' neg' x y = fallbackPixel w h pos neg x y := by
  rw [fallbackPixel_eq, fallbackPixel_eq]
  unfold posHit negHit
  rw [any_congr_of_perm hp, any_congr_of_perm hn]

theorem fallbackMaskArr_perm (w h : Nat) {pos pos' neg neg' : List (ℚ × ℚ)}
    (hp : pos.Perm pos') (hn : neg.Perm neg') :
    fallbackMaskArr w h pos' neg' = fallbackMaskArr w h pos neg := by
  unfold fallbackMaskArr
  have hfun : (fun y => (List.range w).map
        (fun x => (fallbackPixel w h pos' neg' x y : ℚ)))
      = fun y => (List.range w).map (fun x => (fallbackPixel w h pos neg x y : ℚ)) := by
    funext y
    have hx : (fun x => (fallbackPixel w h pos' neg' x y : ℚ))
        = fun x => (fallbackPixel w h pos neg x y : ℚ) := by
      funext x
      rw [fallbackPixel_perm w h hp hn x y]
    rw [hx]
  rw [hfun]

/-!
## Claims
-/

/-- Claim C9, counterexample: a backend mask array of non-boolean dtype with
the non-zero pixel value 0.3 is encoded as 0, not 255 — `encode_mask_to_base64`
thresholds non-boolean arrays at 0.5 rather than at non-zero, so the claim
"every pixel whose source value is non-zero is encoded as 255" fails. -/
theorem C9_counterexample :
    encode_mask_to_base64 (.numArr [[3/10]]) = [[0]] ∧ ((3 : ℚ)/10 ≠ 0) := by
  constructor
  · unfold encode_mask_to_base64
    norm_num
  · norm_num

/-- Claim C9, amended: the encoded mask is a single-channel raster containing
only the values 0 and 255; for boolean mask arrays a pixel is 255 exactly
when its source value is non-zero (`True`), while for non-boolean arrays a
pixel is 255 exactly when its source value exceeds 0.5 (so non-zero values
at or below 0.5 encode to 0). -/
theorem C9_mask_encoding :
    (∀ (m : MaskArray), ∀ row ∈ encode_mask_to_base64 m, ∀ v ∈ row, v = 0 ∨ v = 255) ∧
    (∀ (rows : List (List Bool)) (y x : Nat), y < rows.length →
      x < (rows.getD y []).length →
      ((encode_mask_to_base64 (.boolArr rows)).getD y []).getD x 7
        = if (rows.getD y []).getD x false then 255 else 0) ∧
    (∀ (rows : List (List ℚ)) (y x : Nat), y < rows.length →
      x < (rows.getD y []).length →
      (((encode_mask_to_base64 (.numArr rows)).getD y []).getD x 7 = 255
        ↔ (rows.getD y []).getD x 0 > 1/2)) := by
  refine ⟨?_, ?_, ?_⟩
  · intro m row hrow v hv
    cases m with
    | boolArr rows =>
      simp only [encode_mask_to_base64, List.mem_map] at hrow
      obtain ⟨r0, _, hr0⟩ := hrow
      subst hr0
      simp only [List.mem_map] at hv
      obtain ⟨b, _, hb⟩ := hv
      rw [← hb]
      split <;> simp
    | numArr rows =>
      simp only [encode_mask_to_base64, List.mem_map] at hrow
      obtain ⟨r0, _, hr0⟩ := hrow
      subst hr0
      simp only [List.mem_map] at hv
      obtain ⟨q, _, hq⟩ := hv
      rw [← hq]
      split <;> simp
  · intro rows y x hy hx
    unfold encode_mask_to_base64
    rw [map_getD_commute]
    have hx1 : x < ((rows.getD y []).map (fun b => if b then (255 : Nat) else 0)).length := by
      simpa using hx
    rw [List.getD_eq_getElem _ _ hx1, List.getElem_map, List.getD_eq_getElem _ _ hx]
  · intro rows y x hy hx
    unfold encode_mask_to_base64
    rw [map_getD_commute]
    have hx1 : x < ((rows.getD y []).map (fun v : ℚ => if v > 1/2 then (255 : Nat) else 0)).length := by
      simpa using hx
    rw [List.getD_eq_getElem _ _ hx1, List.getElem_map, List.getD_eq_getElem _ _ hx]
    by_cases h : (rows.getD y []).get ⟨x, hx⟩ > 1/2
    · simp only [List.getD_eq_getElem _ _ hx] at *
      simp [h]
    · simp only [List.getD_eq_getElem _ _ hx] at *
      simp [h]

/-- Claim C9, witness: the amended encoding facts evaluated at concrete masks. -/
theorem C9_mask_encoding_witness :
    (((encode_mask_to_base64 (.boolArr [[true, false]])).getD 0 []).getD 0 7
      = if ([[true, false]].getD 0 []).getD 0 false then 255 else 0) ∧
    ((((encode_mask_to_base64 (.numArr [[1]])).getD 0 []).getD 0 7 = 255)
      ↔ (([[(1 : ℚ)]].getD 0 []).getD 0 0 > 1/2)) :=
  ⟨C9_mask_encoding.2.1 [[true, false]] 0 0 (by decide) (by decide),
   C9_mask_encoding.2.2 [[1]] 0 0 (by decide) (by decide)⟩

/-- Claim C5, counterexample: on a 10×10 image with one positive point at
(5,5) and no negative points, the pixel (6,6) lies within Euclidean
distance `0.15*min(width,height) = 1.5` of the positive point (its squared
distance 2 is at most 2.25), yet the mask returned by the fallback
synthesizer excludes it: the code compares against the truncated integer
radius `int(1.5) = 1`, so the claimed inclusion criterion fails. -/
theorem C5_counterexample :
    ((((generate_fallback_mask
        { image := .ok ⟨10, 10, 0⟩, points_positive := [(5, 5)], points_negative := [],
          multimask_output := false }).masks.headD []).getD 6 []).getD 6 7 = 0) ∧
    ((6 - 5 : ℚ) ^ 2 + (6 - 5 : ℚ) ^ 2 ≤ ((15 : ℚ) / 100 * 10) ^ 2) := by
  constructor
  · have hmask : (generate_fallback_mask
        { image := .ok ⟨10, 10, 0⟩, points_positive := [(5, 5)], points_negative := [],
          multimask_output := false }).masks
        = [encode_mask_to_base64 (fallbackMaskArr 10 10 [(5, 5)] [])] := by
      unfold generate_fallback_mask
      norm_num
    rw [hmask]
    have hhead : ([encode_mask_to_base64 (fallbackMaskArr 10 10 [(5, 5)] [])]).headD []
        = encode_mask_to_base64 (fallbackMaskArr 10 10 [(5, 5)] []) := rfl
    rw [hhead, fallback_encoded_pixel 10 10 [(5, 5)] [] 6 6 (by norm_num) (by norm_num)]
    decide
  · norm_num

/-- Claim C5, amended: for every decodable image and non-empty prompt set the
fallback synthesizer returns success with exactly one mask of fixed score
0.5, and a pixel of that mask is included (255) iff it lies within the
truncated radius `int(0.15*min(w,h))` of some positive point and within no
truncated radius `int(0.10*min(w,h))` of any negative point (Euclidean
distance on the truncated point coordinates); every other pixel is 0. -/
theorem C5_fallback_mask (req : SegmentationRequest) (img : Img)
    (himg : req.image = .ok img)
    (hpts : (req.points_positive ++ req.points_negative).length ≠ 0) :
    (generate_fallback_mask req).success = true ∧
    (generate_fallback_mask req).scores = [1/2] ∧
    (generate_fallback_mask req).masks.length = 1 ∧
    ∀ x y, x < img.width → y < img.height →
      (((((generate_fallback_mask req).masks.headD []).getD y []).getD x 7 = 255) ↔
        ((∃ pt ∈ req.points_positive,
            inDisk (truncInt pt.1) (truncInt pt.2) (rpos img.width img.height) x y) ∧
         ¬(∃ pt ∈ req.points_negative,
            inDisk (truncInt pt.1) (truncInt pt.2) (rneg img.width img.height) x y))) ∧
      (((((generate_fallback_mask req).masks.headD []).getD y []).getD x 7 = 255) ∨
       ((((generate_fallback_mask req).masks.headD []).getD y []).getD x 7 = 0)) := by
  have hresp : generate_fallback_mask req =
      { success := true
        masks := [encode_mask_to_base64
          (fallbackMaskArr img.width img.height req.points_positive req.points_negative)]
        scores := [1/2]
        message := "Fallback mask generated (SAM3 not available)" } := by
    have hne : ¬(req.points_positive = [] ∧ req.points_negative = []) := by
      rintro ⟨h1, h2⟩
      exact hpts (by simp [h1, h2])
    unfold generate_fallback_mask
    rw [himg]
    simp [hne]
  rw [hresp]
  refine ⟨rfl, rfl, rfl, ?_⟩
  intro x y hx hy
  have hpx : (([encode_mask_to_base64
      (fallbackMaskArr img.width img.height req.points_positive req.points_negative)].headD
        []).getD y []).getD x 7
      = fallbackPixel img.width img.height req.points_positive req.points_negative x y :=
    fallback_encoded_pixel img.width img.height _ _ x y hx hy
  constructor
  · rw [hpx, fallbackPixel_eq]
    unfold posHit negHit
    by_cases hn : req.points_negative.any
        (fun pt => inDisk (truncInt pt.1) (truncInt pt.2) (rneg img.width img.height) x y)
    · simp only [hn, if_true]
      constructor
      · intro h0
        exact absurd h0 (by norm_num)
      · rintro ⟨-, hno⟩
        rw [List.any_eq_true] at hn
        exact absurd hn hno
    · simp only [hn, if_false]
      by_cases hp : req.points_positive.any
          (fun pt => inDisk (truncInt pt.1) (truncInt pt.2) (rpos img.width img.height) x y)
      · simp only [hp, if_true]
        constructor
        · intro _
          refine ⟨List.any_eq_true.mp hp, ?_⟩
          intro hc
          exact hn (List.any_eq_true.mpr hc)
        · intro _
          rfl
      · simp only [hp, if_false]
        constructor
        · intro h0
          exact absurd h0 (by norm_num)
        · rintro ⟨hex, -⟩
          exact absurd (List.any_eq_true.mpr hex) hp
  · rw [hpx]
    rcases fallbackPixel_zero_or_255 img.width img.height
        req.points_positive req.points_negative x y with h0 | h255
    · exact Or.inr h0
    · exact Or.inl h255

/-- Claim C5, witness: the amended characterization instantiated on the spec's
own 200×200 example — one positive point at the centre (100,100), no
negative points: the pixel at distance 30 straight below the centre is
included, a pixel at squared distance 901 is excluded, and the response
carries exactly one mask with score 0.5. -/
theorem C5_fallback_mask_witness :
    ((generate_fallback_mask
        { image := .ok ⟨200, 200, 0⟩, points_positive := [(100, 100)], points_negative := [],
          multimask_output := false }).scores = [1/2]) ∧
    (((((generate_fallback_mask
        { image := .ok ⟨200, 200, 0⟩, points_positive := [(100, 100)], points_negative := [],
          multimask_output := false }).masks.headD []).getD 130 []).getD 100 7 = 255)) ∧
    (¬((((generate_fallback_mask
        { image := .ok ⟨200, 200, 0⟩, points_positive := [(100, 100)], points_negative := [],
          multimask_output := false }).masks.headD []).getD 130 []).getD 70 7 = 255)) := by
  have h := C5_fallback_mask
    { image := .ok ⟨200, 200, 0⟩, points_positive := [(100, 100)], points_negative := [],
      multimask_output := false } ⟨200, 200, 0⟩ rfl (by decide)
  refine ⟨h.2.1, ?_, ?_⟩
  · refine ((h.2.2.2 100 130 (by decide) (by decide)).1).mpr ?_
    refine ⟨⟨(100, 100), by decide, ?_⟩, by simp⟩
    decide
  · intro h255
    have hiff := ((h.2.2.2 70 130 (by decide) (by decide)).1).mp h255
    obtain ⟨⟨pt, hmem, hd⟩, -⟩ := hiff
    have hpt : pt = ((100 : ℚ), (100 : ℚ)) := by
      simpa using hmem
    rw [hpt] at hd
    revert hd
    decide

/-- Claim C6, confirmed: in the fallback synthesizer the negative carve
always wins. If the same point occurs in both the positive and the
negative list, the returned mask excludes that location (the negative loop
runs after the positive loop and resets its disk to 0, and a point is at
distance 0 from itself), and the returned response is invariant under any
permutation of the positive list and any permutation of the negative list
(each loop pass only ever writes one constant into a pixel, so pass order
within a polarity is immaterial). -/
theorem C6_negative_carve (req : SegmentationRequest) (img : Img) (pt : ℚ × ℚ)
    (himg : req.image = .ok img)
    (hpos : pt ∈ req.points_positive) (hneg : pt ∈ req.points_negative)
    (hx0 : 0 ≤ truncInt pt.1) (hy0 : 0 ≤ truncInt pt.2)
    (hxw : (truncInt pt.1).toNat < img.width) (hyh : (truncInt pt.2).toNat < img.height) :
    (((((generate_fallback_mask req).masks.headD []).getD (truncInt pt.2).toNat []).getD
        (truncInt pt.1).toNat 7) = 0) ∧
    (∀ pos' neg', req.points_positive.Perm pos' → req.points_negative.Perm neg' →
      generate_fallback_mask
        { image := req.image, points_positive := pos', points_negative := neg',
          multimask_output := req.multimask_output } = generate_fallback_mask req) := by
  constructor
  · have hpts : (req.points_positive ++ req.points_negative).length ≠ 0 := by
      cases hp : req.points_positive with
      | nil => rw [hp] at hpos; cases hpos
      | cons a l => simp [hp]
    have hne : ¬(req.points_positive = [] ∧ req.points_negative = []) := by
      rintro ⟨h1, h2⟩
      exact hpts (by simp [h1, h2])
    have hresp : (generate_fallback_mask req).masks =
        [encode_mask_to_base64
          (fallbackMaskArr img.width img.height req.points_positive req.points_negative)] := by
      unfold generate_fallback_mask
      rw [himg]
      simp [hne]
    rw [hresp]
    have hhead : ([encode_mask_to_base64
        (fallbackMaskArr img.width img.height req.points_positive req.points_negative)]).headD []
        = encode_mask_to_base64
          (fallbackMaskArr img.width img.height req.points_positive req.points_negative) := rfl
    rw [hhead, fallback_encoded_pixel img.width img.height _ _ _ _ hxw hyh]
    rw [fallbackPixel_eq]
    have hhit : negHit img.width img.height req.points_negative
        (truncInt pt.1).toNat (truncInt pt.2).toNat = true := by
      unfold negHit
      rw [List.any_eq_true]
      refine ⟨pt, hneg, ?_⟩
      unfold inDisk
      rw [Int.toNat_of_nonneg hx0, Int.toNat_of_nonneg hy0]
      simp
    rw [hhit]
    rfl
  · intro pos' neg' hp hn
    unfold generate_fallback_mask
    rw [himg]
    have hlen : (pos' ++ neg').length = (req.points_positive ++ req.points_negative).length := by
      simp [hp.length_eq, hn.length_eq]
    by_cases h0 : (req.points_positive ++ req.points_negative).length = 0
    · simp [hlen, h0]
    · have h0' : ¬(pos' ++ neg').length = 0 := by
        rw [hlen]
        exact h0
      simp only [h0, h0', if_false]
      rw [fallbackMaskArr_perm img.width img.height hp hn]

/-- Claim C6, witness: an 8×8 image with the point (4,4) supplied both as
positive and as negative prompt: the mask is 0 at (4,4), and swapping the
two positive points leaves the response unchanged. -/
theorem C6_negative_carve_witness :
    (((((generate_fallback_mask
        { image := .ok ⟨8, 8, 0⟩, points_positive := [(1, 1), (4, 4)],
          points_negative := [(4, 4)], multimask_output := false }).masks.headD
        []).getD 4 []).getD 4 7) = 0) ∧
    (generate_fallback_mask
        { image := .ok ⟨8, 8, 0⟩, points_positive := [(4, 4), (1, 1)],
          points_negative := [(4, 4)], multimask_output := false }
      = generate_fallback_mask
        { image := .ok ⟨8, 8, 0⟩, points_positive := [(1, 1), (4, 4)],
          points_negative := [(4, 4)], multimask_output := false }) := by
  have h := C6_negative_carve
    { image := .ok ⟨8, 8, 0⟩, points_positive := [(1, 1), (4, 4)],
      points_negative := [(4, 4)], multimask_output := false }
    ⟨8, 8, 0⟩ ((4 : ℚ), (4 : ℚ)) rfl (by decide) (by decide)
    (by decide) (by decide) (by decide) (by decide)
  exact ⟨h.1, h.2 [(4, 4), (1, 1)] [(4, 4)] (List.Perm.swap _ _ _) (List.Perm.refl _)⟩

/-- Claim C2, counterexample: a request whose point lists are both empty but
whose image payload does not decode does NOT fail with the empty-prompt
error, and the two paths do not behave identically: the learned path
raises an HTTP 500 carrying the decode error, while the fallback path
returns a `success=False` response carrying the decode message — in both
cases the decode error preempts the empty-prompt check. -/
theorem C2_counterexample :
    (segmentStep
        { embed := fun _ => .ok 0, predict := fun _ _ _ _ => .ok ([], []) }
        { sam3Available := true, modelLoaded := true, backend := .sam1,
          imageHash := none, imageState := none }
        { image := .error "cannot identify image file", points_positive := [],
          points_negative := [], multimask_output := false }).1
      = .error "cannot identify image file" ∧
    (segmentStep
        { embed := fun _ => .ok 0, predict := fun _ _ _ _ => .ok ([], []) }
        { sam3Available := false, modelLoaded := false, backend := .nobackend,
          imageHash := none, imageState := none }
        { image := .error "cannot identify image file", points_positive := [],
          points_negative := [], multimask_output := false }).1
      = .ok { success := false, masks := [], scores := [],
              message := "cannot identify image file" } := by
  constructor
  · rfl
  · rfl

/-- Claim C2, amended: provided the request's image decodes (and, on the
learned path, the embedding step succeeds when it runs), a request with an
empty positive list and an empty negative list always yields the
`success=False` "No points provided" response with no masks, identically
on the learned and on the fallback path. -/
theorem C2_empty_prompt (B : BackendOps) (st : ServerState) (req : SegmentationRequest)
    (img : Img)
    (himg : req.image = .ok img)
    (hpos : req.points_positive = []) (hneg : req.points_negative = [])
    (hemb : backendInactive st = false → ¬st.imageHash = some img.fingerprint →
      (B.embed img).isOk = true) :
    (segmentStep B st req).1
      = .ok { success := false, masks := [], scores := [],
              message := "No points provided" } := by
  by_cases hact : backendInactive st = true
  · rw [segmentStep_inactive B st req hact]
    unfold generate_fallback_mask
    rw [himg]
    simp [hpos, hneg]
  · have hact' : backendInactive st = false := by
      simpa using hact
    by_cases hc : st.imageHash = some img.fingerprint
    · rw [segmentStep_cached B st req img hact' himg hc]
      unfold segmentAfterEmbed
      simp [hpos, hneg]
    · obtain ⟨emb, hembok⟩ := (except_isOk_iff _).mp (hemb hact' hc)
      rw [segmentStep_embed_ok B st req img emb hact' himg hc hembok]
      unfold segmentAfterEmbed
      simp [hpos, hneg]

/-- Claim C2, witness: the amended statement on a concrete decodable request
with empty prompts, on an active-backend state and on a no-backend state. -/
theorem C2_empty_prompt_witness :
    ((segmentStep
        { embed := fun _ => .ok 5, predict := fun _ _ _ _ => .ok ([], []) }
        { sam3Available := true, modelLoaded := true, backend := .sam1,
          imageHash := none, imageState := none }
        { image := .ok ⟨8, 8, 3⟩, points_positive := [], points_negative := [],
          multimask_output := false }).1
      = .ok { success := false, masks := [], scores := [],
              message := "No points provided" }) ∧
    ((segmentStep
        { embed := fun _ => .ok 5, predict := fun _ _ _ _ => .ok ([], []) }
        { sam3Available := false, modelLoaded := false, backend := .nobackend,
          imageHash := none, imageState := none }
        { image := .ok ⟨8, 8, 3⟩, points_positive := [], points_negative := [],
          multimask_output := false }).1
      = .ok { success := false, masks := [], scores := [],
              message := "No points provided" }) :=
  ⟨C2_empty_prompt _ _ _ ⟨8, 8, 3⟩ rfl rfl rfl (fun _ _ => rfl),
   C2_empty_prompt _ _ _ ⟨8, 8, 3⟩ rfl rfl rfl (fun h _ => by cases h)⟩

theorem runSeq_embed_once (B : BackendOps) (fp : Nat) :
    ∀ (rs : List SegmentationRequest) (st : ServerState),
      backendInactive st = false →
      (∀ r ∈ rs, ∃ i, r.image = .ok i ∧ i.fingerprint = fp ∧ (B.embed i).isOk = true) →
      (runSeq B st rs).2 ≤ 1 ∧ (st.imageHash = some fp → (runSeq B st rs).2 = 0)
  | [], _, _, _ => ⟨Nat.zero_le 1, fun _ => rfl⟩
  | r :: rs, st, hact, hall => by
    obtain ⟨i, himg, hfp, hok⟩ := hall r (List.mem_cons_self r rs)
    have hrest : ∀ r' ∈ rs, ∃ i, r'.image = .ok i ∧ i.fingerprint = fp ∧
        (B.embed i).isOk = true :=
      fun r' hr' => hall r' (List.mem_cons_of_mem r hr')
    by_cases hc : st.imageHash = some i.fingerprint
    · have hstep := segmentStep_cached B st r i hact himg hc
      have hstate := segmentAfterEmbed_state B st r 0
      have ih := runSeq_embed_once B fp rs st hact hrest
      simp only [runSeq, hstep, hstate]
      have hcached : st.imageHash = some fp := by
        rw [hc, hfp]
      refine ⟨?_, fun _ => ?_⟩
      · rw [ih.2 hcached]
        exact Nat.zero_le 1
      · rw [ih.2 hcached]
    · obtain ⟨emb, hemb⟩ := (except_isOk_iff (B.embed i)).mp hok
      have hstep := segmentStep_embed_ok B st r i emb hact himg hc hemb
      have hstate := segmentAfterEmbed_state B
        { st with imageHash := some i.fingerprint, imageState := some emb } r 1
      have hact' : backendInactive
          { st with imageHash := some i.fingerprint, imageState := some emb } = false := hact
      have ih := runSeq_embed_once B fp rs
        { st with imageHash := some i.fingerprint, imageState := some emb } hact' hrest
      simp only [runSeq, hstep, hstate]
      have hcached :
          ServerState.imageHash
            { st with imageHash := some i.fingerprint, imageState := some emb }
            = some fp := by
        simp [hfp]
      refine ⟨?_, fun hst => ?_⟩
      · rw [ih.2 hcached]
      · exact absurd (hst.trans (by rw [hfp])) hc

/-- Claim C3, confirmed: the single-slot embedding cache of `/segment`. When
the cached fingerprint matches the request's, the request performs no
embedding computation and leaves the module state untouched; when it
differs, exactly one embedding computation runs and the state afterwards
holds exactly the new (fingerprint, embedding) pair, the previous pair
having been overwritten; consequently any sequence of requests whose
images share one fingerprint computes the embedding at most once. -/
theorem C3_embedding_cache (B : BackendOps) (st : ServerState) (req : SegmentationRequest)
    (img : Img) (emb : Nat)
    (hact : backendInactive st = false)
    (himg : req.image = .ok img)
    (hemb : B.embed img = .ok emb) :
    (st.imageHash = some img.fingerprint →
      (segmentStep B st req).2.1 = st ∧ (segmentStep B st req).2.2 = 0) ∧
    (¬st.imageHash = some img.fingerprint →
      (segmentStep B st req).2.1
          = { st with imageHash := some img.fingerprint, imageState := some emb } ∧
      (segmentStep B st req).2.2 = 1) ∧
    (∀ (rs : List SegmentationRequest) (fp : Nat),
      (∀ r ∈ rs, ∃ i, r.image = .ok i ∧ i.fingerprint = fp ∧ (B.embed i).isOk = true) →
      (runSeq B st rs).2 ≤ 1) := by
  refine ⟨?_, ?_, ?_⟩
  · intro hc
    rw [segmentStep_cached B st req img hact himg hc]
    have hstate := segmentAfterEmbed_state B st req 0
    constructor
    · exact congrArg Prod.fst hstate
    · exact congrArg Prod.snd hstate
  · intro hc
    rw [segmentStep_embed_ok B st req img emb hact himg hc hemb]
    have hstate := segmentAfterEmbed_state B
      { st with imageHash := some img.fingerprint, imageState := some emb } req 1
    constructor
    · exact congrArg Prod.fst hstate
    · exact congrArg Prod.snd hstate
  · intro rs fp hall
    exact (runSeq_embed_once B fp rs st hact hall).1

/-- Claim C3, witness: a two-request sequence against the same fingerprint 42
starting from an empty cache computes the embedding exactly once overall,
and the cached second request leaves the state untouched. -/
theorem C3_embedding_cache_witness :
    ((segmentStep
        { embed := fun _ => .ok 9, predict := fun _ _ _ _ => .ok ([], []) }
        { sam3Available := true, modelLoaded := true, backend := .sam1,
          imageHash := none, imageState := none }
        { image := .ok ⟨8, 8, 42⟩, points_positive := [(1, 1)], points_negative := [],
          multimask_output := false }).2.1
      = { sam3Available := true, modelLoaded := true, backend := .sam1,
          imageHash := some 42, imageState := some 9 }) ∧
    ((segmentStep
        { embed := fun _ => .ok 9, predict := fun _ _ _ _ => .ok ([], []) }
        { sam3Available := true, modelLoaded := true, backend := .sam1,
          imageHash := some 42, imageState := some 9 }
        { image := .ok ⟨8, 8, 42⟩, points_positive := [(1, 1)], points_negative := [],
          multimask_output := false }).2.2 = 0) ∧
    ((runSeq
        { embed := fun _ => .ok 9, predict := fun _ _ _ _ => .ok ([], []) }
        { sam3Available := true, modelLoaded := true, backend := .sam1,
          imageHash := none, imageState := none }
        [{ image := .ok ⟨8, 8, 42⟩, points_positive := [(1, 1)], points_negative := [],
           multimask_output := false },
         { image := .ok ⟨8, 8, 42⟩, points_positive := [(2, 2)], points_negative := [],
           multimask_output := false }]).2 ≤ 1) := by
  refine ⟨?_, ?_, ?_⟩
  · exact ((C3_embedding_cache
      { embed := fun _ => .ok 9, predict := fun _ _ _ _ => .ok ([], []) }
      { sam3Available := true, modelLoaded := true, backend := .sam1,
        imageHash := none, imageState := none }
      { image := .ok ⟨8, 8, 42⟩, points_positive := [(1, 1)], points_negative := [],
        multimask_output := false } ⟨8, 8, 42⟩ 9 rfl rfl rfl).2.1 (by simp)).1
  · exact ((C3_embedding_cache
      { embed := fun _ => .ok 9, predict := fun _ _ _ _ => .ok ([], []) }
      { sam3Available := true, modelLoaded := true, backend := .sam1,
        imageHash := some 42, imageState := some 9 }
      { image := .ok ⟨8, 8, 42⟩, points_positive := [(1, 1)], points_negative := [],
        multimask_output := false } ⟨8, 8, 42⟩ 9 rfl rfl rfl).1 rfl).2
  · refine (C3_embedding_cache
      { embed := fun _ => .ok 9, predict := fun _ _ _ _ => .ok ([], []) }
      { sam3Available := true, modelLoaded := true, backend := .sam1,
        imageHash := none, imageState := none }
      { image := .ok ⟨8, 8, 42⟩, points_positive := [(1, 1)], points_negative := [],
        multimask_output := false } ⟨8, 8, 42⟩ 9 rfl rfl rfl).2.2 _ 42 ?_
    intro r hr
    rcases List.mem_cons.mp hr with h | hr2
    · exact ⟨⟨8, 8, 42⟩, by rw [h], rfl, rfl⟩
    · rcases List.mem_cons.mp hr2 with h | h3
      · exact ⟨⟨8, 8, 42⟩, by rw [h], rfl, rfl⟩
      · cases h3

/-- Claim C8, confirmed: a request whose image fails to decode, or whose
embedding computation fails, surfaces the failure to the caller (an HTTP
500 on the learned paths, a `success=False` response on the fallback
segment path) and leaves the embedding cache — indeed the whole module
state — exactly as it was, with no embedding computed on the decode-failure
paths and the failed computation never installed on the embed-failure
paths. -/
theorem C8_failure_preserves_cache (B : BackendOps) (st : ServerState) (img : Img)
    (e : String) :
    (∀ req : SegmentationRequest, req.image = .error e →
      (backendInactive st = false → segmentStep B st req = (.error e, st, 0)) ∧
      (backendInactive st = true →
        segmentStep B st req
          = (.ok { success := false, masks := [], scores := [], message := e }, st, 0))) ∧
    (∀ req : SetImageRequest, req.image = .error e →
      setImageStep B st req = (.error e, st, 0)) ∧
    (B.embed img = .error e → backendInactive st = false →
      ¬st.imageHash = some img.fingerprint →
      (∀ req : SegmentationRequest, req.image = .ok img →
        segmentStep B st req = (.error e, st, 1)) ∧
      (∀ req : SetImageRequest, req.image = .ok img →
        setImageStep B st req = (.error e, st, 1))) := by
  refine ⟨?_, ?_, ?_⟩
  · intro req himg
    constructor
    · intro hact
      exact segmentStep_decode_error B st req e hact himg
    · intro hact
      rw [segmentStep_inactive B st req hact]
      unfold generate_fallback_mask
      rw [himg]
  · intro req himg
    unfold setImageStep
    by_cases hact : backendInactive st = true
    · simp [hact, himg]
    · have hact' : backendInactive st = false := by simpa using hact
      simp [hact', himg]
  · intro hemb hact hc
    constructor
    · intro req himg
      exact segmentStep_embed_error B st req img e hact himg hc hemb
    · intro req himg
      unfold setImageStep
      simp [hact, himg, hc, hemb]

/-- Claim C8, witness: a concrete undecodable request and a concrete request
whose embedding computation fails, on concrete states: the cache fields
are unchanged in each case and the error is returned. -/
theorem C8_failure_preserves_cache_witness :
    (segmentStep
        { embed := fun _ => .error "backend crash", predict := fun _ _ _ _ => .ok ([], []) }
        { sam3Available := true, modelLoaded := true, backend := .sam1,
          imageHash := some 1, imageState := some 4 }
        { image := .error "cannot identify image file", points_positive := [(1, 1)],
          points_negative := [], multimask_output := false }
      = (.error "cannot identify image file",
         { sam3Available := true, modelLoaded := true, backend := .sam1,
           imageHash := some 1, imageState := some 4 }, 0)) ∧
    (setImageStep
        { embed := fun _ => .error "backend crash", predict := fun _ _ _ _ => .ok ([], []) }
        { sam3Available := true, modelLoaded := true, backend := .sam1,
          imageHash := some 1, imageState := some 4 }
        { image := .ok ⟨8, 8, 2⟩ }
      = (.error "backend crash",
         { sam3Available := true, modelLoaded := true, backend := .sam1,
           imageHash := some 1, imageState := some 4 }, 1)) := by
  constructor
  · exact ((C8_failure_preserves_cache
      { embed := fun _ => .error "backend crash", predict := fun _ _ _ _ => .ok ([], []) }
      { sam3Available := true, modelLoaded := true, backend := .sam1,
        imageHash := some 1, imageState := some 4 }
      ⟨8, 8, 2⟩ "cannot identify image file").1
      { image := .error "cannot identify image file", points_positive := [(1, 1)],
        points_negative := [], multimask_output := false } rfl).1 rfl
  · exact (((C8_failure_preserves_cache
      { embed := fun _ => .error "backend crash", predict := fun _ _ _ _ => .ok ([], []) }
      { sam3Available := true, modelLoaded := true, backend := .sam1,
        imageHash := some 1, imageState := some 4 }
      ⟨8, 8, 2⟩ "backend crash").2.2 rfl rfl (by simp)).2
      { image := .ok ⟨8, 8, 2⟩ } rfl)

/-- Claim C10, confirmed: with no learned backend active, `/set_image` on a
decodable image returns success carrying `[width, height]`, makes no
embedding computation, leaves the module state (in particular the cached
fingerprint and embedding state) completely unchanged, and its response
does not depend on the cache fields at all — any state with the same
availability flags yields the same response. -/
theorem C10_setimage_fallback_frame (B : BackendOps) (st : ServerState)
    (req : SetImageRequest) (img : Img)
    (hact : backendInactive st = true) (himg : req.image = .ok img) :
    (setImageStep B st req
      = (.ok { success := true, image_size := [img.width, img.height],
               message := "SAM3 not available, using fallback mode" }, st, 0)) ∧
    (∀ st' : ServerState, st'.sam3Available = st.sam3Available →
      st'.modelLoaded = st.modelLoaded →
      (setImageStep B st' req).1 = (setImageStep B st req).1) := by
  have hmain : ∀ z : ServerState, backendInactive z = true →
      setImageStep B z req
        = (.ok { success := true, image_size := [img.width, img.height],
                 message := "SAM3 not available, using fallback mode" }, z, 0) := by
    intro z hz
    unfold setImageStep
    simp [hz, himg]
  constructor
  · exact hmain st hact
  · intro st' h1 h2
    have hact' : backendInactive st' = true := by
      unfold backendInactive at hact ⊢
      rw [h1, h2]
      exact hact
    rw [hmain st hact, hmain st' hact']

/-- Claim C10, witness: concrete no-backend state with a populated cache: the
response reports the 8×6 size, the state and cache survive unchanged, and
a state with a different cache yields the same response. -/
theorem C10_setimage_fallback_frame_witness :
    (setImageStep
        { embed := fun _ => .ok 0, predict := fun _ _ _ _ => .ok ([], []) }
        { sam3Available := false, modelLoaded := false, backend := .nobackend,
          imageHash := some 77, imageState := some 5 }
        { image := .ok ⟨8, 6, 3⟩ }
      = (.ok { success := true, image_size := [8, 6],
               message := "SAM3 not available, using fallback mode" },
         { sam3Available := false, modelLoaded := false, backend := .nobackend,
           imageHash := some 77, imageState := some 5 }, 0)) ∧
    ((setImageStep
        { embed := fun _ => .ok 0, predict := fun _ _ _ _ => .ok ([], []) }
        { sam3Available := false, modelLoaded := false, backend := .nobackend,
          imageHash := none, imageState := none }
        { image := .ok ⟨8, 6, 3⟩ }).1
      = (setImageStep
        { embed := fun _ => .ok 0, predict := fun _ _ _ _ => .ok ([], []) }
        { sam3Available := false, modelLoaded := false, backend := .nobackend,
          imageHash := some 77, imageState := some 5 }
        { image := .ok ⟨8, 6, 3⟩ }).1) := by
  have h := C10_setimage_fallback_frame
    { embed := fun _ => .ok 0, predict := fun _ _ _ _ => .ok ([], []) }
    { sam3Available := false, modelLoaded := false, backend := .nobackend,
      imageHash := some 77, imageState := some 5 }
    { image := .ok ⟨8, 6, 3⟩ } ⟨8, 6, 3⟩ rfl rfl
  exact ⟨h.1, h.2
    { sam3Available := false, modelLoaded := false, backend := .nobackend,
      imageHash := none, imageState := none } rfl rfl⟩

/-- Claim C4, counterexample: `SegmentationResponse` — mirrored field for
field from the source pydantic model — has exactly one boolean field,
`success`. A successful fallback-path response and a successful
learned-path response agree on it (both `true`), so no boolean field of
the result record distinguishes the fallback path: the claimed `degraded`
field does not exist in the code. -/
theorem C4_counterexample :
    ((segmentStep
        { embed := fun _ => .ok 0, predict := fun _ _ _ _ => .ok ([.boolArr [[true]]], [1]) }
        { sam3Available := false, modelLoaded := false, backend := .nobackend,
          imageHash := none, imageState := none }
        { image := .ok ⟨4, 4, 7⟩, points_positive := [(1, 1)], points_negative := [],
          multimask_output := false }).1.toOption.map SegmentationResponse.success
      = some true) ∧
    ((segmentStep
        { embed := fun _ => .ok 0, predict := fun _ _ _ _ => .ok ([.boolArr [[true]]], [1]) }
        { sam3Available := true, modelLoaded := true, backend := .sam1,
          imageHash := some 7, imageState := some 0 }
        { image := .ok ⟨4, 4, 7⟩, points_positive := [(1, 1)], points_negative := [],
          multimask_output := false }).1.toOption.map SegmentationResponse.success
      = some true) :=
  ⟨rfl, rfl⟩

/-- Claim C4, amended: the response carries no boolean `degraded` field; the
fallback path is distinguishable only through the `message` string. Every
successful fallback response has `success = true` and the fixed message
"Fallback mask generated (SAM3 not available)", while every successful
learned response has `success = true` and a message of the form
"Generated {n} mask(s)", which is never equal to the fallback message. -/
theorem C4_degraded_signal (B : BackendOps) (st : ServerState) (req : SegmentationRequest)
    (img : Img) (himg : req.image = .ok img)
    (hpts : (req.points_positive ++ req.points_negative).length ≠ 0) :
    (backendInactive st = true →
      ∃ r, (segmentStep B st req).1 = .ok r ∧ r.success = true ∧
        r.message = "Fallback mask generated (SAM3 not available)") ∧
    (∀ (ms : List MaskArray) (ss : List Score),
      backendInactive st = false → st.imageHash = some img.fingerprint →
      B.predict st.imageState (req.points_positive ++ req.points_negative)
        (List.replicate req.points_positive.length 1
          ++ List.replicate req.points_negative.length 0)
        req.multimask_output = .ok (ms, ss) →
      ∃ r, (segmentStep B st req).1 = .ok r ∧ r.success = true ∧
        r.message = generatedMessage (sortByScoreDesc ms ss).1.length ∧
        r.message ≠ "Fallback mask generated (SAM3 not available)") := by
  constructor
  · intro hact
    rw [segmentStep_inactive B st req hact]
    have hne : ¬(req.points_positive = [] ∧ req.points_negative = []) := by
      rintro ⟨h1, h2⟩
      exact hpts (by simp [h1, h2])
    refine ⟨generate_fallback_mask req, rfl, ?_, ?_⟩
    · unfold generate_fallback_mask
      rw [himg]
      simp [hne]
    · unfold generate_fallback_mask
      rw [himg]
      simp [hne]
  · intro ms ss hact hc hpred
    rw [segmentStep_cached B st req img hact himg hc]
    rw [segmentAfterEmbed_ok B st req 0 ms ss hpts hpred]
    refine ⟨_, rfl, rfl, rfl, ?_⟩
    exact generatedMessage_ne_fallback _

/-- Claim C4, witness: the amended statement at concrete fallback and learned
requests. -/
theorem C4_degraded_signal_witness :
    (∃ r, (segmentStep
        { embed := fun _ => .ok 0, predict := fun _ _ _ _ => .ok ([.boolArr [[true]]], [1]) }
        { sam3Available := false, modelLoaded := false, backend := .nobackend,
          imageHash := none, imageState := none }
        { image := .ok ⟨4, 4, 7⟩, points_positive := [(1, 1)], points_negative := [],
          multimask_output := false }).1 = .ok r ∧ r.success = true ∧
      r.message = "Fallback mask generated (SAM3 not available)") ∧
    (∃ r, (segmentStep
        { embed := fun _ => .ok 0, predict := fun _ _ _ _ => .ok ([.boolArr [[true]]], [1]) }
        { sam3Available := true, modelLoaded := true, backend := .sam1,
          imageHash := some 7, imageState := some 0 }
        { image := .ok ⟨4, 4, 7⟩, points_positive := [(1, 1)], points_negative := [],
          multimask_output := false }).1 = .ok r ∧ r.success = true ∧
      r.message = generatedMessage
        (sortByScoreDesc [.boolArr [[true]]] [1]).1.length ∧
      r.message ≠ "Fallback mask generated (SAM3 not available)") := by
  constructor
  · exact (C4_degraded_signal
      { embed := fun _ => .ok 0, predict := fun _ _ _ _ => .ok ([.boolArr [[true]]], [1]) }
      { sam3Available := false, modelLoaded := false, backend := .nobackend,
        imageHash := none, imageState := none }
      { image := .ok ⟨4, 4, 7⟩, points_positive := [(1, 1)], points_negative := [],
        multimask_output := false } ⟨4, 4, 7⟩ rfl (by simp)).1 rfl
  · exact (C4_degraded_signal
      { embed := fun _ => .ok 0, predict := fun _ _ _ _ => .ok ([.boolArr [[true]]], [1]) }
      { sam3Available := true, modelLoaded := true, backend := .sam1,
        imageHash := some 7, imageState := some 0 }
      { image := .ok ⟨4, 4, 7⟩, points_positive := [(1, 1)], points_negative := [],
        multimask_output := false } ⟨4, 4, 7⟩ rfl (by simp)).2
      [.boolArr [[true]]] [1] rfl rfl rfl

/-- Claim C1, counterexample: `np.argsort(scores)[::-1]` reverses a *stable
ascending* argsort (numpy's introsort runs its stable insertion sort on
arrays this short), so equal scores come back in *reversed* emission
order, not the original one. With the backend emitting masks `[A, B]` and
equal scores `[1, 1]`, `segment` returns the encoded masks in the order
`[B, A]`, refuting "pairs with equal scores appear in the backend's
original emission order". -/
theorem C1_counterexample :
    ((segmentStep
        { embed := fun _ => .ok 0,
          predict := fun _ _ _ _ => .ok ([.boolArr [[true]], .boolArr [[false]]], [1, 1]) }
        { sam3Available := true, modelLoaded := true, backend := .sam1,
          imageHash := some 7, imageState := some 0 }
        { image := .ok ⟨4, 4, 7⟩, points_positive := [(1, 1)], points_negative := [],
          multimask_output := true }).1.toOption.map SegmentationResponse.masks
      = some [[[0]], [[255]]]) ∧
    (encode_mask_to_base64 (.boolArr [[true]]) = [[255]] ∧
     encode_mask_to_base64 (.boolArr [[false]]) = [[0]]) := by
  refine ⟨?_, by decide, by decide⟩
  decide

/-- Claim C1, amended: the masks returned by the learned path of `segment`
are the backend's (mask, score) pairs sorted by descending score with the
masks permuted identically to the scores; pairs with equal scores appear
in the *reverse* of the backend's emission order (the code reverses a
stable ascending argsort). The returned index order is exactly
lexicographically decreasing in (score, emission index). -/
theorem C1_sorted_masks (B : BackendOps) (st : ServerState) (req : SegmentationRequest)
    (img : Img) (ms : List MaskArray) (ss : List Score)
    (hact : backendInactive st = false) (himg : req.image = .ok img)
    (hc : st.imageHash = some img.fingerprint)
    (hpts : (req.points_positive ++ req.points_negative).length ≠ 0)
    (hlen : ms.length = ss.length)
    (hpred : B.predict st.imageState (req.points_positive ++ req.points_negative)
      (List.replicate req.points_positive.length 1
        ++ List.replicate req.points_negative.length 0)
      req.multimask_output = .ok (ms, ss)) :
    ∃ r, (segmentStep B st req).1 = .ok r ∧
      r.scores.Sorted (· ≥ ·) ∧
      (r.masks.zip r.scores).Perm ((ms.map encode_mask_to_base64).zip ss) ∧
      ∃ idx : List Nat, idx.Perm (List.range ss.length) ∧ idx.Sorted (lexGe ss) ∧
        r.masks = idx.map (fun i => encode_mask_to_base64 (ms.getD i (.boolArr []))) ∧
        r.scores = idx.map (keyOf ss) := by
  rw [segmentStep_cached B st req img hact himg hc,
      segmentAfterEmbed_ok B st req 0 ms ss hpts hpred]
  refine ⟨_, rfl, sortByScoreDesc_scores_sorted ms ss, ?_, sortIdx ss, sortIdx_perm ss,
    sortIdx_sorted ss, ?_, sortByScoreDesc_scores ms ss⟩
  · show ((List.map encode_mask_to_base64 (sortByScoreDesc ms ss).1).zip
        (sortByScoreDesc ms ss).2).Perm ((List.map encode_mask_to_base64 ms).zip ss)
    rw [List.zip_map_left, List.zip_map_left]
    exact (sortByScoreDesc_zip_perm ms ss hlen).map _
  · rw [sortByScoreDesc_masks, List.map_map]
    rfl

/-- Claim C1, witness: the amended sorting facts at a concrete request whose
mock backend emits scores `[2, 1]`. -/
theorem C1_sorted_masks_witness :
    ∃ r, (segmentStep
        { embed := fun _ => .ok 0,
          predict := fun _ _ _ _ => .ok ([.boolArr [[true]], .boolArr [[false]]], [2, 1]) }
        { sam3Available := true, modelLoaded := true, backend := .sam1,
          imageHash := some 7, imageState := some 0 }
        { image := .ok ⟨4, 4, 7⟩, points_positive := [(1, 1)], points_negative := [],
          multimask_output := true }).1 = .ok r ∧
      r.scores.Sorted (· ≥ ·) ∧
      (r.masks.zip r.scores).Perm
        (([MaskArray.boolArr [[true]], MaskArray.boolArr [[false]]].map
          encode_mask_to_base64).zip [2, 1]) ∧
      ∃ idx : List Nat, idx.Perm (List.range ([(2 : Score), 1].length)) ∧
        idx.Sorted (lexGe [2, 1]) ∧
        r.masks = idx.map (fun i =>
          encode_mask_to_base64
            ([MaskArray.boolArr [[true]], MaskArray.boolArr [[false]]].getD i (.boolArr []))) ∧
        r.scores = idx.map (keyOf [2, 1]) :=
  C1_sorted_masks
    { embed := fun _ => .ok 0,
      predict := fun _ _ _ _ => .ok ([.boolArr [[true]], .boolArr [[false]]], [2, 1]) }
    { sam3Available := true, modelLoaded := true, backend := .sam1,
      imageHash := some 7, imageState := some 0 }
    { image := .ok ⟨4, 4, 7⟩, points_positive := [(1, 1)], points_negative := [],
      multimask_output := true }
    ⟨4, 4, 7⟩ [.boolArr [[true]], .boolArr [[false]]] [2, 1]
    rfl rfl rfl (by simp) rfl rfl

theorem except_isOk_false_iff {ε α : Type} (e : Except ε α) :
    e.isOk = false ↔ ∃ x, e = .error x := by
  cases e with
  | error x => simp [Except.isOk, Except.toBool]
  | ok a => simp [Except.isOk, Except.toBool]

theorem runSeq_inactive_state (B : BackendOps) :
    ∀ (rs : List SegmentationRequest) (st : ServerState),
      backendInactive st = true → (runSeq B st rs).1 = st
  | [], _, _ => rfl
  | r :: rs, st, h => by
    simp only [runSeq, segmentStep_inactive B st r h]
    exact runSeq_inactive_state B rs st h

/-- Claim C7, confirmed: `load_model` tries SAM3 first and SAM1 second; every
initialization failure is absorbed (the function always returns instead of
propagating) and advances to the next candidate; if every candidate fails
the selector commits to the no-backend state. A second call on a loaded
state performs no attempt and changes nothing, `/segment` requests never
touch the selector's state, and in the committed no-backend state every
subsequent `/segment` request — after any number of earlier requests — is
served by the geometry-only fallback synthesizer. -/
theorem C7_backend_selector (env : InitEnv) :
    (env.sam3Attempt.isOk = true →
      (startServer env).backend = .sam3 ∧ backendInactive (startServer env) = false) ∧
    (env.sam3Attempt.isOk = false → env.sam1Import.isOk = true →
      env.sam1CheckpointPresent = true → env.sam1Build.isOk = true →
      (startServer env).backend = .sam1 ∧ backendInactive (startServer env) = false) ∧
    (env.sam3Attempt.isOk = false →
      (env.sam1Import.isOk = false ∨ env.sam1CheckpointPresent = false ∨
        env.sam1Build.isOk = false) →
      (startServer env).backend = .nobackend ∧ backendInactive (startServer env) = true) ∧
    (∀ st : ServerState, st.modelLoaded = true → load_model env st = (true, st, 0)) ∧
    (∀ (B : BackendOps) (st : ServerState) (req : SegmentationRequest),
      (segmentStep B st req).2.1.backend = st.backend ∧
      (segmentStep B st req).2.1.modelLoaded = st.modelLoaded ∧
      (segmentStep B st req).2.1.sam3Available = st.sam3Available) ∧
    (∀ (B : BackendOps) (rs : List SegmentationRequest) (req : SegmentationRequest),
      backendInactive (startServer env) = true →
      (segmentStep B (runSeq B (startServer env) rs).1 req).1
        = .ok (generate_fallback_mask req)) := by
  refine ⟨?_, ?_, ?_, ?_, ?_, ?_⟩
  · intro h3
    obtain ⟨u, hu⟩ := (except_isOk_iff _).mp h3
    constructor
    · unfold startServer load_model initialState selectBackend
      rw [hu]
      rfl
    · unfold startServer load_model initialState selectBackend backendInactive
      rw [hu]
      rfl
  · intro h3 h1i h1c h1b
    obtain ⟨e3, he3⟩ := (except_isOk_false_iff _).mp h3
    obtain ⟨u1, hu1⟩ := (except_isOk_iff _).mp h1i
    obtain ⟨ub, hub⟩ := (except_isOk_iff _).mp h1b
    constructor
    · unfold startServer load_model initialState selectBackend
      rw [he3, hu1, hub, h1c]
      rfl
    · unfold startServer load_model initialState selectBackend backendInactive
      rw [he3, hu1, hub, h1c]
      rfl
  · intro h3 hfail
    obtain ⟨e3, he3⟩ := (except_isOk_false_iff _).mp h3
    have hsel : selectBackend env = .nobackend := by
      unfold selectBackend
      rw [he3]
      rcases hfail with hImp | hchk | hbld
      · obtain ⟨e1, he1⟩ := (except_isOk_false_iff _).mp hImp
        rw [he1]
      · cases hu1 : env.sam1Import with
        | error e => rfl
        | ok u =>
          rw [hchk]
          rfl
      · obtain ⟨eb, heb⟩ := (except_isOk_false_iff _).mp hbld
        cases hu1 : env.sam1Import with
        | error e => rfl
        | ok u =>
          by_cases hc : env.sam1CheckpointPresent
          · rw [if_pos hc, heb]
          · rw [if_neg hc]
    constructor
    · unfold startServer load_model initialState
      rw [hsel]
      rfl
    · unfold startServer load_model initialState backendInactive
      rw [hsel]
      rfl
  · intro st hst
    unfold load_model
    rw [hst]
    rfl
  · intro B st req
    obtain ⟨h1, h2, h3⟩ := segmentStep_preserves_model B st req
    exact ⟨h3, h2, h1⟩
  · intro B rs req hin
    rw [runSeq_inactive_state B rs (startServer env) hin]
    have h := segmentStep_inactive B (startServer env) req hin
    exact congrArg Prod.fst h

/-- Claim C7, witness: the selector facts at a concrete environment in which
SAM3 fails to import and the SAM1 checkpoint file is missing: the process
commits to no backend and a request after an earlier request is served by
the fallback synthesizer; on an already-loaded state `load_model` is a
no-op. -/
theorem C7_backend_selector_witness :
    ((startServer
        { sam3Attempt := .error "No module named sam3", sam1Import := .ok (),
          sam1CheckpointPresent := false, sam1Build := .ok () }).backend
      = .nobackend) ∧
    (load_model
        { sam3Attempt := .error "No module named sam3", sam1Import := .ok (),
          sam1CheckpointPresent := false, sam1Build := .ok () }
        { sam3Available := true, modelLoaded := true, backend := .sam3,
          imageHash := none, imageState := none }
      = (true, { sam3Available := true, modelLoaded := true, backend := .sam3,
                 imageHash := none, imageState := none }, 0)) ∧
    ((segmentStep
        { embed := fun _ => .ok 0, predict := fun _ _ _ _ => .ok ([], []) }
        (runSeq
          { embed := fun _ => .ok 0, predict := fun _ _ _ _ => .ok ([], []) }
          (startServer
            { sam3Attempt := .error "No module named sam3", sam1Import := .ok (),
              sam1CheckpointPresent := false, sam1Build := .ok () })
          [{ image := .ok ⟨8, 8, 1⟩, points_positive := [(1, 1)], points_negative := [],
             multimask_output := false }]).1
        { image := .ok ⟨8, 8, 2⟩, points_positive := [(2, 2)], points_negative := [],
          multimask_output := false }).1
      = .ok (generate_fallback_mask
          { image := .ok ⟨8, 8, 2⟩, points_positive := [(2, 2)], points_negative := [],
            multimask_output := false })) := by
  have h := C7_backend_selector
    { sam3Attempt := .error "No module named sam3", sam1Import := .ok (),
      sam1CheckpointPresent := false, sam1Build := .ok () }
  have hno := h.2.2.1 rfl (Or.inr (Or.inl rfl))
  refine ⟨hno.1, h.2.2.2.1 _ rfl, ?_⟩
  exact h.2.2.2.2.2
    { embed := fun _ => .ok 0, predict := fun _ _ _ _ => .ok ([], []) }
    [{ image := .ok ⟨8, 8, 1⟩, points_positive := [(1, 1)], points_negative := [],
       multimask_output := false }]
    { image := .ok ⟨8, 8, 2⟩, points_positive := [(2, 2)], points_negative := [],
      multimask_output := false }
    hno.2

end GenGameAssets
